import Mathlib

/-!
Verification of the botarena game engine (src/game.js).

The JavaScript source is shallowly embedded over exact rationals:
JS numbers become rationals, timestamps (milliseconds from Date.now)
become integers, and the few places where the source calls Math.sqrt
take the square root as an extra parameter that theorems pin down with
the hypotheses 0 <= d and d * d = squared magnitude.  Side effects
(particle emission, plugin hooks, squash animation) are tracked as
explicit fields of the embedded state.  A separate section models JS
NaN propagation with Option-valued numbers for the degenerate-geometry
claim about zero-length wall segments.
-/

namespace BotArena

/-- 2D vector, from class Vector2 in game.js.  Components are exact
rationals standing for JS numbers. -/
structure Vector2 where
  x : ℚ
  y : ℚ
deriving DecidableEq, Repr

/-- Vector2.add from game.js. -/
def Vector2.add (a b : Vector2) : Vector2 := ⟨a.x + b.x, a.y + b.y⟩

/-- Vector2.subtract from game.js. -/
def Vector2.subtract (a b : Vector2) : Vector2 := ⟨a.x - b.x, a.y - b.y⟩

/-- Vector2.multiply (by a scalar) from game.js. -/
def Vector2.multiply (a : Vector2) (s : ℚ) : Vector2 := ⟨a.x * s, a.y * s⟩

/-- Vector2.dot from game.js. -/
def Vector2.dot (a b : Vector2) : ℚ := a.x * b.x + a.y * b.y

/-- The square of Vector2.magnitude from game.js: the source computes
Math.sqrt of this quantity.  Since rationals have no square root, the
development works with the square; magnitudes themselves appear as
pinned parameters d with 0 <= d and d * d = magnitudeSq. -/
def Vector2.magnitudeSq (a : Vector2) : ℚ := a.x * a.x + a.y * a.y

/-- Vector2.normalize from game.js, with the magnitude mag passed in
as the pinned square root of magnitudeSq.  The source returns the zero
vector when the magnitude is exactly 0, else divides both components
by the magnitude. -/
def normalizeWith (v : Vector2) (mag : ℚ) : Vector2 :=
  if mag = 0 then ⟨0, 0⟩ else ⟨v.x / mag, v.y / mag⟩

/-- Bot state, from class Bot in game.js; the fields relevant to the
verified claims.  damageHookCalls counts invocations of the plugin
onBotDamage hook and particlesEmitted counts particles pushed via
createOptimizedParticles / the Particle constructor, so that the side
effects of takeDamage and the regeneration tweak are observable. -/
structure Bot where
  position : Vector2
  velocity : Vector2
  radius : ℚ
  health : ℤ
  maxHealth : ℤ
  lastHitTime : ℤ
  lastRegenTime : ℤ
  squashScale : ℚ
  damageHookCalls : ℕ
  particlesEmitted : ℕ
deriving DecidableEq, Repr

/-- GAME_CONFIG.game.invulnerabilityTime in game.js (milliseconds). -/
def invulnerabilityTime : ℤ := 1000

/-- Bot.takeDamage from game.js, lines 576 to 598.  now is the value
Date.now() returns during the call (the source reads the clock twice
within the same call; both reads are the same tick).  Returns the JS
boolean result together with the updated bot.  On a successful hit the
source decrements health, stamps lastHitTime, sets squashScale to 0.7,
emits 15 hit particles (createHitParticles, desktop particle count)
and invokes the plugin onBotDamage hook. -/
def takeDamage (now : ℤ) (b : Bot) : Bool × Bot :=
  if now - b.lastHitTime < invulnerabilityTime then
    (false, b)
  else
    (true,
      { b with
        health := b.health - 1
        lastHitTime := now
        squashScale := 7/10
        particlesEmitted := b.particlesEmitted + 15
        damageHookCalls := b.damageHookCalls + 1 })

/-- RegenerationTweak.onBotInit from game.js: stamps the current time
into lastRegenTime. -/
def regenerationOnBotInit (now : ℤ) (b : Bot) : Bot :=
  { b with lastRegenTime := now }

/-- RegenerationTweak.onBotUpdate from game.js, lines 117 to 127: if
health < maxHealth and at least 60000 ms elapsed since lastRegenTime,
heal 1 (capped at maxHealth by Math.min), restamp lastRegenTime and
emit 10 particles. -/
def regenerationOnBotUpdate (now : ℤ) (b : Bot) : Bot :=
  if b.health < b.maxHealth then
    if now - b.lastRegenTime ≥ 60000 then
      { b with
        health := min (b.health + 1) b.maxHealth
        lastRegenTime := now
        particlesEmitted := b.particlesEmitted + 10 }
    else b
  else b

/-- Degree normalization used by Bot.isPointInAchillesHeel in game.js:
the source computes ((x * 180 / Math.PI) + 360) % 360 on angles in
radians.  Here the angle is already taken in degrees and the JS
remainder (x + 360) % 360 is the floor remainder, which agrees with
the JS operator whenever the dividend x + 360 is nonnegative — always
the case in the source, where atan2 results lie in (-180, 180] degrees
and heel arc angles are nonnegative. -/
def normalizeDeg (x : ℚ) : ℚ :=
  x + 360 - 360 * ⌊(x + 360) / 360⌋

/-- Bot.isPointInAchillesHeel from game.js, lines 541 to 574, in the
degree domain: dist is the attacker-to-defender centre distance (the
source computes it as a magnitude), targetRadius the defender radius,
attackingRadius the attacker radius, and attackDeg, startDeg, endDeg
the attack angle and heel arc endpoints in degrees before the
normalization that the source performs.  The distance gate rejects
dist > targetRadius + attackingRadius + 10; then containment in the
arc is tested with the wrap-around split on normalized degrees. -/
def isPointInAchillesHeelDeg
    (dist targetRadius attackingRadius attackDeg startDeg endDeg : ℚ) : Bool :=
  let maxCollisionDistance := targetRadius + attackingRadius + 10
  if dist > maxCollisionDistance then false
  else
    let attackAngleDegrees := normalizeDeg attackDeg
    let startAngleDegrees := normalizeDeg startDeg
    let endAngleDegrees := normalizeDeg endDeg
    if startAngleDegrees ≤ endAngleDegrees then
      decide (startAngleDegrees ≤ attackAngleDegrees ∧
        attackAngleDegrees ≤ endAngleDegrees)
    else
      decide (startAngleDegrees ≤ attackAngleDegrees ∨
        attackAngleDegrees ≤ endAngleDegrees)

/-- Match state, from the gameState object in game.js.  winner is
some 0 or some 1 for a bot id, none for the JS null (draw or not yet
decided; the gameOver flag disambiguates, as in the source). -/
structure GameState where
  running : Bool
  gameOver : Bool
  winner : Option ℕ
deriving DecidableEq, Repr

/-- endGame from game.js, lines 992 to 1007 (state part): set
gameOver, record the winner and stop the loop. -/
def endGame (winnerId : Option ℕ) (gs : GameState) : GameState :=
  { gs with gameOver := true, winner := winnerId, running := false }

/-- checkWinCondition from game.js, lines 976 to 990, as a function of
the two bot healths: a bot is dead when health <= 0; both dead is a
draw (winner null), exactly one dead makes the other the winner,
otherwise the state is unchanged. -/
def checkWinCondition (h1 h2 : ℤ) (gs : GameState) : GameState :=
  let bot1Dead := h1 ≤ 0
  let bot2Dead := h2 ≤ 0
  if bot1Dead ∧ bot2Dead then endGame none gs
  else if bot1Dead then endGame (some 1) gs
  else if bot2Dead then endGame (some 0) gs
  else gs

/-- The whole mutable world one tick acts on: the match state and the
two bots (particles omitted; they never affect the verified claims). -/
structure World where
  gameState : GameState
  bot1 : Bot
  bot2 : Bot
deriving DecidableEq, Repr

/-- update from game.js, lines 835 to 858: the first statement returns
immediately when gameState.gameOver is set, so the rest of the tick
pipeline (abstracted here as step, since it spans the whole physics
and combat engine) never runs on a finished match. -/
def updateWith (step : World → World) (w : World) : World :=
  if w.gameState.gameOver then w else step w

/-- Tweak plugin record, from class TweakPlugin in game.js.  Only the
identity data matters for the registry claims; hook behavior is
modelled by the standalone functions above (for example
regenerationOnBotUpdate). -/
structure TweakPlugin where
  id : String
  name : String
  descr : String
deriving DecidableEq, Repr

/-- new NoTweak() from game.js. -/
def noTweak : TweakPlugin := ⟨"none", "No Tweak", "Standard gameplay"⟩

/-- new SmallerSizeTweak() from game.js. -/
def smallerSizeTweak : TweakPlugin :=
  ⟨"smaller", "Smaller Size", "30 percent smaller bot, harder to hit"⟩

/-- new ExtraLifeTweak() from game.js. -/
def extraLifeTweak : TweakPlugin :=
  ⟨"extra-life", "Extra Life", "Start with 6 lives instead of 5"⟩

/-- new RegenerationTweak() from game.js. -/
def regenerationTweak : TweakPlugin :=
  ⟨"regeneration", "Regeneration", "Gain 1 life every minute"⟩

/-- The JS Map inside TweakRegistry, modelled by its lookup function:
Map.get returns the stored plugin or undefined (none). -/
def Registry : Type := String → Option TweakPlugin

/-- TweakRegistry.register from game.js: Map.set inserts or overwrites
the entry keyed by the plugin id. -/
def Registry.register (r : Registry) (p : TweakPlugin) : Registry :=
  fun i => if i = p.id then some p else r i

/-- TweakRegistry.get from game.js: this.tweaks.get(id) falls back via
the JS or-operator to this.tweaks.get("none") when the first lookup
returns undefined (plugin objects are always truthy). -/
def Registry.get (r : Registry) (id : String) : Option TweakPlugin :=
  match r id with
  | some p => some p
  | none => r "none"

/-- The empty Map a fresh TweakRegistry starts from. -/
def emptyRegistry : Registry := fun _ => none

/-- The global tweakRegistry after registerBuiltInTweaks in game.js:
the four built-in plugins registered in source order. -/
def tweakRegistry : Registry :=
  ((((emptyRegistry.register noTweak).register smallerSizeTweak).register
    extraLifeTweak).register regenerationTweak)

/-- One edge of checkWallCollision from game.js, lines 865 to 898: the
body of the loop over consecutive arena vertices v1, v2, acting on one
bot.  The distance from the bot centre to the closest point of the
segment is Math.sqrt of a squared magnitude; it is passed in as the
pinned parameter d.  On a collision (d < radius) the bot is pushed out
of the wall along the outward normal by the penetration depth, the
velocity is reflected about the normal without losing speed, and 5
bounce particles are emitted.  Faithful to the JS source whenever the
segment is nondegenerate (line.dot line not 0); the degenerate case,
where JS arithmetic produces NaN, is modelled separately below. -/
def checkWallCollisionEdge (v1 v2 : Vector2) (d : ℚ) (b : Bot) : Bot :=
  let line := v2.subtract v1
  let toBotStart := b.position.subtract v1
  let projection := max 0 (min 1 (toBotStart.dot line / line.dot line))
  let closest := v1.add (line.multiply projection)
  if d < b.radius then
    let normal := normalizeWith (b.position.subtract closest) d
    let penetration := b.radius - d
    { b with
      position := b.position.add (normal.multiply penetration)
      velocity :=
        b.velocity.subtract (normal.multiply (2 * (b.velocity.dot normal)))
      particlesEmitted := b.particlesEmitted + 5 }
  else b

/-- The closest point on the edge that checkWallCollisionEdge measures
d against, written out for stating theorems. -/
def wallClosestPoint (v1 v2 : Vector2) (p : Vector2) : Vector2 :=
  let line := v2.subtract v1
  let toBotStart := p.subtract v1
  let projection := max 0 (min 1 (toBotStart.dot line / line.dot line))
  v1.add (line.multiply projection)

/-- Physics part of checkBotCollisions from game.js, lines 906 to 931:
d is the pinned centre distance (the magnitude the source computes),
s1 and s2 the pinned speeds of the two bots.  On overlap
(d < radius1 + radius2) both bots are moved by the full penetration
vector along the centre-to-centre normal (bot1 backward, bot2
forward), the velocities are reassigned to the normal scaled by -s1
and +s2, and both squash scales are set to 0.8.  The subsequent hook
calls and the achilles-heel hit chain (lines 930 to 937) are modelled
separately by isPointInAchillesHeelDeg and takeDamage. -/
def resolveBotCollision (d s1 s2 : ℚ) (b1 b2 : Bot) : Bot × Bot :=
  let minDistance := b1.radius + b2.radius
  if d < minDistance then
    let normal := normalizeWith (b2.position.subtract b1.position) d
    let penetration := minDistance - d
    ({ b1 with
        position := b1.position.subtract (normal.multiply penetration)
        velocity := normal.multiply (-s1)
        squashScale := 4/5 },
     { b2 with
        position := b2.position.add (normal.multiply penetration)
        velocity := normal.multiply s2
        squashScale := 4/5 })
  else (b1, b2)

/-! ### JS NaN tracking for degenerate wall segments

JS numbers extended with a non-finite absorbing value: none stands for
NaN (the only non-finite value the wall code can produce, via 0/0).
Every arithmetic operation propagates it and every comparison with it
is false, as in IEEE/JS semantics. -/

/-- A JS number: some finite rational, or none for NaN. -/
abbrev JNum : Type := Option ℚ

/-- Lift a binary rational operation to JS numbers, NaN-absorbing. -/
def jbin (f : ℚ → ℚ → ℚ) : JNum → JNum → JNum
  | some a, some b => some (f a b)
  | _, _ => none

/-- JS addition. -/
def jadd : JNum → JNum → JNum := jbin (· + ·)

/-- JS subtraction. -/
def jsub : JNum → JNum → JNum := jbin (· - ·)

/-- JS multiplication. -/
def jmul : JNum → JNum → JNum := jbin (· * ·)

/-- JS division as exercised by the wall code: NaN operands propagate
and 0 in the denominator yields NaN.  (In full JS, x/0 is an infinity
for x not 0; in checkWallCollision the denominator line.dot(line) is 0
only when the numerator is 0 as well, so 0/0 = NaN is the only
division-by-zero the source can perform.) -/
def jdiv : JNum → JNum → JNum
  | some a, some b => if b = 0 then none else some (a / b)
  | _, _ => none

/-- JS Math.min: NaN if either argument is NaN. -/
def jmin : JNum → JNum → JNum
  | some a, some b => some (min a b)
  | _, _ => none

/-- JS Math.max: NaN if either argument is NaN. -/
def jmax : JNum → JNum → JNum
  | some a, some b => some (max a b)
  | _, _ => none

/-- JS less-than: any comparison with NaN is false. -/
def jlt : JNum → JNum → Bool
  | some a, some b => decide (a < b)
  | _, _ => false

/-- 2D vector of JS numbers. -/
structure JVec where
  x : JNum
  y : JNum

/-- Vector2.add on JS numbers. -/
def jaddV (a b : JVec) : JVec := ⟨jadd a.x b.x, jadd a.y b.y⟩

/-- Vector2.subtract on JS numbers. -/
def jsubV (a b : JVec) : JVec := ⟨jsub a.x b.x, jsub a.y b.y⟩

/-- Vector2.multiply on JS numbers. -/
def jmulV (a : JVec) (s : JNum) : JVec := ⟨jmul a.x s, jmul a.y s⟩

/-- Vector2.dot on JS numbers. -/
def jdotV (a b : JVec) : JNum := jadd (jmul a.x b.x) (jmul a.y b.y)

/-- Vector2.normalize on JS numbers with the magnitude passed in: the
source compares mag === 0 (false for NaN, so a NaN magnitude flows
into the division and yields NaN components, exactly as in JS). -/
def jnormalizeWith (v : JVec) (m : JNum) : JVec :=
  if m = some 0 then ⟨some 0, some 0⟩ else ⟨jdiv v.x m, jdiv v.y m⟩

/-- The bot state touched by checkWallCollision, on JS numbers. -/
structure JBot where
  position : JVec
  velocity : JVec
  radius : JNum

/-- One edge of checkWallCollision from game.js on NaN-tracking JS
numbers, with no nondegeneracy assumption: the unguarded projection
division is taken exactly as written in the source.  The collision
test distance < radius is expressed on squares (sqrt m < r iff
m < r * r for nonnegative r, and both fail on NaN), and d is the
pinned distance used by the resolution branch. -/
def checkWallCollisionEdgeJS (v1 v2 : JVec) (d : JNum) (b : JBot) : JBot :=
  let line := jsubV v2 v1
  let toBotStart := jsubV b.position v1
  let projection :=
    jmax (some 0) (jmin (some 1) (jdiv (jdotV toBotStart line) (jdotV line line)))
  let closest := jaddV v1 (jmulV line projection)
  let diff := jsubV b.position closest
  if jlt (jdotV diff diff) (jmul b.radius b.radius) then
    let normal := jnormalizeWith diff d
    let penetration := jsub b.radius d
    { b with
      position := jaddV b.position (jmulV normal penetration)
      velocity :=
        jsubV b.velocity (jmulV normal (jmul (some 2) (jdotV b.velocity normal))) }
  else b

/-! ### Concrete states used by witnesses and counterexamples -/

/-- A bot in the state the Bot constructor produces on desktop
defaults: 5 health, radius 25, lastHitTime 0. -/
def botEx : Bot :=
  { position := ⟨0, 0⟩, velocity := ⟨3, 4⟩, radius := 25, health := 5
    maxHealth := 5, lastHitTime := 0, lastRegenTime := 0, squashScale := 1
    damageHookCalls := 0, particlesEmitted := 0 }

/-- A regenerating bot at health 3 of 5, initialized at time 0. -/
def regenBotEx : Bot := regenerationOnBotInit 0 { botEx with health := 3 }

/-- A running match state. -/
def gsEx : GameState := { running := true, gameOver := false, winner := none }

/-- A bot overlapping the wall segment from (0,0) to (4,0). -/
def wallBotEx : Bot := { botEx with position := ⟨1, 1⟩ }

/-- First bot of a concrete bot-bot collision. -/
def colBot1 : Bot := botEx

/-- Second bot of a concrete bot-bot collision, 30 apart (radii 25). -/
def colBot2 : Bot := { botEx with position := ⟨30, 0⟩, velocity := ⟨0, 0⟩ }

/-- Two bots whose centres coincide (velocity of the first is (3,4),
speed 5); the degenerate input refuting the unrestricted speed
preservation of claim C4. -/
def cexBot1 : Bot := { botEx with position := ⟨100, 100⟩ }

/-- Second coincident-centre bot, at rest. -/
def cexBot2 : Bot := { botEx with position := ⟨100, 100⟩, velocity := ⟨0, 0⟩ }

/-! ### Helper lemmas -/

/-- normalizeDeg is the identity on angles already in [0, 360). -/
theorem normalizeDeg_eq_self {x : ℚ} (h0 : 0 ≤ x) (h1 : x < 360) :
    normalizeDeg x = x := by
  have hf : ⌊(x + 360) / 360⌋ = 1 := by
    rw [Int.floor_eq_iff]
    constructor
    · rw [le_div_iff₀ (by norm_num : (0:ℚ) < 360)]
      push_cast
      linarith
    · rw [div_lt_iff₀ (by norm_num : (0:ℚ) < 360)]
      push_cast
      linarith
  rw [normalizeDeg, hf]
  push_cast
  ring

/-- C1: weak-spot hit detection.  For every attacker/defender pair, a
hit is registered iff the attacker-to-defender distance is at most
defender radius + attacker radius + 10 and, with the attack angle and
arc endpoints normalized into [0, 360) degrees, the angle lies in the
arc: when start <= end, iff start <= angle <= end; when start > end
(wrap past 0 degrees), iff angle >= start or angle <= end.  In
particular, for an arc from 350 to 10 degrees, angles 355 and 5 are
hits and 180 is not (at distance 50 with radii 25 and 25). -/
theorem achillesHeel_spec :
    (∀ dist rt ra a s e : ℚ,
      0 ≤ a → a < 360 → 0 ≤ s → s < 360 → 0 ≤ e → e < 360 →
      (isPointInAchillesHeelDeg dist rt ra a s e = true ↔
        (dist ≤ rt + ra + 10 ∧
          if s ≤ e then s ≤ a ∧ a ≤ e else (s ≤ a ∨ a ≤ e)))) ∧
    isPointInAchillesHeelDeg 50 25 25 355 350 10 = true ∧
    isPointInAchillesHeelDeg 50 25 25 5 350 10 = true ∧
    isPointInAchillesHeelDeg 50 25 25 180 350 10 = false := by
  refine ⟨?_,
    by norm_num [isPointInAchillesHeelDeg, normalizeDeg, decide_eq_true_eq],
    by norm_num [isPointInAchillesHeelDeg, normalizeDeg, decide_eq_true_eq],
    by norm_num [isPointInAchillesHeelDeg, normalizeDeg, decide_eq_true_eq]⟩
  intro dist rt ra a s e ha0 ha1 hs0 hs1 he0 he1
  rw [isPointInAchillesHeelDeg]
  simp only [normalizeDeg_eq_self ha0 ha1, normalizeDeg_eq_self hs0 hs1,
    normalizeDeg_eq_self he0 he1]
  by_cases hgate : dist > rt + ra + 10
  · rw [if_pos hgate]
    simp only [Bool.false_eq_true, false_iff]
    intro hcon
    exact absurd hcon.1 (not_le.mpr hgate)
  · rw [if_neg hgate]
    have hle : dist ≤ rt + ra + 10 := not_lt.mp hgate
    by_cases hse : s ≤ e
    · rw [if_pos hse, if_pos hse]
      simp [hle]
    · rw [if_neg hse, if_neg hse]
      simp [hle]

/-- C1 witness: the normal-case arc from 100 to 200 degrees contains
the attack angle 150 at distance 50 (radii 25 and 25). -/
theorem achillesHeel_spec_witness :
    isPointInAchillesHeelDeg 50 25 25 150 100 200 = true :=
  (achillesHeel_spec.1 50 25 25 150 100 200 (by decide) (by decide)
    (by decide) (by decide) (by decide) (by decide)).mpr (by norm_num)

/-- C2: takeDamage.  Inside the 1000 ms invulnerability window the
call returns false and leaves the bot unchanged; otherwise it
decrements health by exactly 1, stamps lastHitTime, squashes, emits
hit particles, invokes the damage hook and returns true.  Hence two
hits separated by less than 1000 ms apply damage once and hits
separated by at least 1000 ms apply damage twice. -/
theorem takeDamage_spec : ∀ (now : ℤ) (b : Bot),
    (now - b.lastHitTime < 1000 → takeDamage now b = (false, b)) ∧
    (1000 ≤ now - b.lastHitTime →
      takeDamage now b =
        (true,
          { b with
            health := b.health - 1
            lastHitTime := now
            squashScale := 7/10
            particlesEmitted := b.particlesEmitted + 15
            damageHookCalls := b.damageHookCalls + 1 })) ∧
    (∀ t1 t2 : ℤ, 1000 ≤ t1 - b.lastHitTime →
      (t2 - t1 < 1000 →
        ((takeDamage t2 (takeDamage t1 b).2).2).health = b.health - 1) ∧
      (1000 ≤ t2 - t1 →
        ((takeDamage t2 (takeDamage t1 b).2).2).health = b.health - 2)) := by
  intro now b
  refine ⟨fun h => ?_, fun h => ?_, fun t1 t2 h1 => ?_⟩
  · rw [takeDamage, if_pos (by simpa [invulnerabilityTime] using h)]
  · rw [takeDamage, if_neg (by simp only [invulnerabilityTime, not_lt]; omega)]
  · have e1 : (takeDamage t1 b).2 =
        { b with
          health := b.health - 1
          lastHitTime := t1
          squashScale := 7/10
          particlesEmitted := b.particlesEmitted + 15
          damageHookCalls := b.damageHookCalls + 1 } := by
      rw [takeDamage, if_neg (by simp only [invulnerabilityTime, not_lt]; omega)]
    refine ⟨fun h2 => ?_, fun h2 => ?_⟩
    · rw [e1, takeDamage]
      dsimp only
      rw [if_pos (show t2 - t1 < invulnerabilityTime by
        simp only [invulnerabilityTime]; omega)]
    · rw [e1, takeDamage]
      dsimp only
      rw [if_neg (show ¬(t2 - t1 < invulnerabilityTime) by
        simp only [invulnerabilityTime, not_lt]; omega)]
      dsimp only
      omega

/-- C2 witness: a first landed hit at time 2000 on the default bot. -/
theorem takeDamage_spec_witness :
    takeDamage 2000 botEx =
      (true,
        { botEx with
          health := botEx.health - 1
          lastHitTime := 2000
          squashScale := 7/10
          particlesEmitted := botEx.particlesEmitted + 15
          damageHookCalls := botEx.damageHookCalls + 1 }) :=
  (takeDamage_spec 2000 botEx).2.1 (by decide)

/-- C5: win condition.  A bot is dead exactly when its health is at
most 0; both dead ends the match as a draw (winner null), exactly one
dead makes the other bot the winner, otherwise the state is unchanged;
and once gameOver is set the update pipeline returns without running
any step, so no further state (in particular health) changes. -/
theorem checkWinCondition_spec : ∀ (h1 h2 : ℤ) (gs : GameState),
    (h1 ≤ 0 → h2 ≤ 0 →
      checkWinCondition h1 h2 gs =
        { gs with gameOver := true, winner := none, running := false }) ∧
    (h1 ≤ 0 → 0 < h2 →
      checkWinCondition h1 h2 gs =
        { gs with gameOver := true, winner := some 1, running := false }) ∧
    (0 < h1 → h2 ≤ 0 →
      checkWinCondition h1 h2 gs =
        { gs with gameOver := true, winner := some 0, running := false }) ∧
    (0 < h1 → 0 < h2 → checkWinCondition h1 h2 gs = gs) ∧
    (∀ (step : World → World) (w : World),
      w.gameState.gameOver = true → updateWith step w = w) := by
  intro h1 h2 gs
  refine ⟨fun ha hb => ?_, fun ha hb => ?_, fun ha hb => ?_, fun ha hb => ?_,
    fun step w hw => ?_⟩
  · rw [checkWinCondition]
    simp only [endGame]
    rw [if_pos ⟨ha, hb⟩]
  · rw [checkWinCondition]
    simp only [endGame]
    rw [if_neg (by omega), if_pos ha]
  · rw [checkWinCondition]
    simp only [endGame]
    rw [if_neg (by omega), if_neg (by omega), if_pos hb]
  · rw [checkWinCondition]
    simp only [endGame]
    rw [if_neg (by omega), if_neg (by omega), if_neg (by omega)]
  · rw [updateWith, if_pos hw]

/-- C5 witness: bot1 at 0 health while bot2 has 3 makes bot 1 (the
second bot) the winner. -/
theorem checkWinCondition_spec_witness :
    checkWinCondition 0 3 gsEx =
      { gsEx with gameOver := true, winner := some 1, running := false } :=
  (checkWinCondition_spec 0 3 gsEx).2.1 (by decide) (by decide)

/-- C6: registry contract.  register inserts or overwrites the entry
keyed by the plugin id and touches no other key; get returns the
plugin registered under the id when present and otherwise falls back
to the plugin registered under "none"; on the built-in registry get
always succeeds, and get of a nonexistent id returns the same plugin
as get of "none", namely the NoTweak instance. -/
theorem registry_spec : ∀ (p : TweakPlugin) (r : Registry) (id : String),
    ((r.register p) p.id = some p) ∧
    (id ≠ p.id → (r.register p) id = r id) ∧
    (∀ q, r id = some q → r.get id = some q) ∧
    (r id = none → r.get id = r "none") ∧
    (tweakRegistry.get id).isSome = true ∧
    tweakRegistry.get "nonexistent-id" = tweakRegistry.get "none" ∧
    tweakRegistry.get "none" = some noTweak := by
  intro p r id
  refine ⟨?_, fun hne => ?_, fun q hq => ?_, fun hq => ?_, ?_, ?_, ?_⟩
  · rw [Registry.register, if_pos rfl]
  · rw [Registry.register, if_neg hne]
  · rw [Registry.get, hq]
  · rw [Registry.get, hq]
  · rw [Registry.get]
    cases htr : tweakRegistry id
    · decide
    · rfl
  · decide
  · decide

/-- C6 witness: registering ExtraLife does not disturb the entry for
"none" in the built-in registry. -/
theorem registry_spec_witness :
    (tweakRegistry.register extraLifeTweak) "none" = tweakRegistry "none" :=
  (registry_spec extraLifeTweak tweakRegistry "none").2.1 (by decide)

/-- C7: regeneration plugin.  onBotInit stamps the current time; on
update, exactly when health < maxHealth and at least 60000 ms elapsed
since the stored timestamp, health increases by exactly 1 (staying at
most maxHealth), the timestamp resets and particles are emitted;
otherwise the bot is unchanged.  A bot at health 3 of 5, initialized
at time 0, gains exactly 1 health at 60000 ms and none at 59999. -/
theorem regeneration_spec : ∀ (now : ℤ) (b : Bot),
    (regenerationOnBotInit now b = { b with lastRegenTime := now }) ∧
    (b.health < b.maxHealth → 60000 ≤ now - b.lastRegenTime →
      regenerationOnBotUpdate now b =
        { b with
          health := b.health + 1
          lastRegenTime := now
          particlesEmitted := b.particlesEmitted + 10 } ∧
      b.health + 1 ≤ b.maxHealth) ∧
    (b.maxHealth ≤ b.health → regenerationOnBotUpdate now b = b) ∧
    (now - b.lastRegenTime < 60000 → regenerationOnBotUpdate now b = b) ∧
    ((regenerationOnBotUpdate 60000 regenBotEx).health = 4 ∧
     (regenerationOnBotUpdate 59999 regenBotEx).health = 3) := by
  intro now b
  refine ⟨rfl, fun hh ht => ⟨?_, by omega⟩, fun hh => ?_, fun ht => ?_,
    by decide, by decide⟩
  · rw [regenerationOnBotUpdate, if_pos hh, if_pos ht]
    have : min (b.health + 1) b.maxHealth = b.health + 1 := by omega
    rw [this]
  · rw [regenerationOnBotUpdate, if_neg (by omega)]
  · rw [regenerationOnBotUpdate]
    by_cases hh : b.health < b.maxHealth
    · rw [if_pos hh, if_neg (by omega)]
    · rw [if_neg hh]

/-- C7 witness: the concrete regenerating bot heals exactly 1 at
60000 ms elapsed. -/
theorem regeneration_spec_witness :
    regenerationOnBotUpdate 60000 regenBotEx =
      { regenBotEx with
        health := regenBotEx.health + 1
        lastRegenTime := 60000
        particlesEmitted := regenBotEx.particlesEmitted + 10 } ∧
    regenBotEx.health + 1 ≤ regenBotEx.maxHealth :=
  (regeneration_spec 60000 regenBotEx).2.1 (by decide) (by decide)

/-- C9: normalize is total; with the magnitude m pinned as the square
root of the squared magnitude, the zero-magnitude case returns the
zero vector (and occurs exactly when the vector is zero), and
otherwise the result is the vector scaled by 1/m. -/
theorem normalize_spec : ∀ (v : Vector2) (m : ℚ), 0 ≤ m →
    m * m = v.magnitudeSq →
    (m = 0 → normalizeWith v m = ⟨0, 0⟩) ∧
    (m ≠ 0 → normalizeWith v m = v.multiply (1 / m)) ∧
    (m = 0 ↔ v = ⟨0, 0⟩) := by
  intro v m hm0 hmsq
  refine ⟨fun h => ?_, fun h => ?_, ?_, ?_⟩
  · rw [normalizeWith, if_pos h]
  · rw [normalizeWith, if_neg h, Vector2.multiply]
    have hx : v.x / m = v.x * (1 / m) := by ring
    have hy : v.y / m = v.y * (1 / m) := by ring
    rw [hx, hy]
  · intro h
    subst h
    rw [Vector2.magnitudeSq] at hmsq
    have hx : v.x = 0 := mul_self_eq_zero.mp
      (by linarith [mul_self_nonneg v.x, mul_self_nonneg v.y])
    have hy : v.y = 0 := mul_self_eq_zero.mp
      (by linarith [mul_self_nonneg v.x, mul_self_nonneg v.y])
    have hv : v = ⟨v.x, v.y⟩ := rfl
    rw [hv, hx, hy]
  · intro h
    rw [h] at hmsq
    simp [Vector2.magnitudeSq] at hmsq
    exact hmsq

/-- C9 witness: the vector (3,4) has magnitude 5 and normalizes to the
vector scaled by 1/5. -/
theorem normalize_spec_witness :
    normalizeWith ⟨3, 4⟩ 5 = Vector2.multiply ⟨3, 4⟩ (1 / 5) :=
  (normalize_spec ⟨3, 4⟩ 5 (by decide) (by norm_num [Vector2.magnitudeSq])).2.1
    (by decide)

/-- The outward wall normal computed inside checkWallCollisionEdge:
the normalized vector from the closest point on the edge to the bot
centre, with the distance d pinned as its magnitude. -/
def wallNormal (v1 v2 p : Vector2) (d : ℚ) : Vector2 :=
  normalizeWith (p.subtract (wallClosestPoint v1 v2 p)) d

/-- A vector normalized with its own pinned magnitude is a unit vector
(whenever the magnitude is nonzero). -/
theorem normalizeWith_dot_self (u : Vector2) (d : ℚ) (hne : d ≠ 0)
    (hd : d * d = u.magnitudeSq) :
    (normalizeWith u d).dot (normalizeWith u d) = 1 := by
  rw [normalizeWith, if_neg hne, Vector2.dot]
  rw [Vector2.magnitudeSq] at hd
  field_simp
  linarith [hd]

/-- Reflection about a unit vector preserves the squared magnitude. -/
theorem reflect_magSq (v n : Vector2) (hn : n.dot n = 1) :
    (v.subtract (n.multiply (2 * (v.dot n)))).magnitudeSq = v.magnitudeSq := by
  rw [Vector2.dot] at hn
  simp only [Vector2.subtract, Vector2.multiply, Vector2.dot, Vector2.magnitudeSq]
  linear_combination (2 * (v.x * n.x + v.y * n.y))^2 * hn

/-- Reflection about a normalizeWith normal preserves the squared
magnitude, including the zero-magnitude guard case where the normal is
the zero vector and the velocity is untouched. -/
theorem reflect_normalizeWith_magSq (v u : Vector2) (d : ℚ)
    (hd : d * d = u.magnitudeSq) :
    (v.subtract ((normalizeWith u d).multiply
      (2 * (v.dot (normalizeWith u d))))).magnitudeSq = v.magnitudeSq := by
  by_cases h : d = 0
  · subst h
    rw [normalizeWith, if_pos rfl]
    simp only [Vector2.subtract, Vector2.multiply, Vector2.dot, Vector2.magnitudeSq]
    ring
  · exact reflect_magSq v _ (normalizeWith_dot_self u d h hd)

/-- Squared magnitude of a scalar multiple. -/
theorem magSq_multiply (v : Vector2) (c : ℚ) :
    (v.multiply c).magnitudeSq = (c * c) * v.magnitudeSq := by
  simp only [Vector2.multiply, Vector2.magnitudeSq]
  ring

/-- C3: wall collision resolution.  For every bot and nondegenerate
edge whose closest point to the bot centre lies at distance d strictly
less than the bot radius (d pinned as the true distance), the bot is
pushed out along the outward normal by the penetration depth
radius - d, the velocity is reflected about that normal as
v - 2 (v.n) n, and the reflection preserves the squared speed exactly
(elastic bounce, exact over the rationals). -/
theorem wallCollision_spec (v1 v2 : Vector2) (d : ℚ) (b : Bot)
    (hseg : (v2.subtract v1).dot (v2.subtract v1) ≠ 0)
    (hd0 : 0 ≤ d)
    (hd : d * d =
      (b.position.subtract (wallClosestPoint v1 v2 b.position)).magnitudeSq)
    (hcol : d < b.radius) :
    (checkWallCollisionEdge v1 v2 d b).position =
      b.position.add ((wallNormal v1 v2 b.position d).multiply (b.radius - d)) ∧
    (checkWallCollisionEdge v1 v2 d b).velocity =
      b.velocity.subtract ((wallNormal v1 v2 b.position d).multiply
        (2 * (b.velocity.dot (wallNormal v1 v2 b.position d)))) ∧
    (checkWallCollisionEdge v1 v2 d b).velocity.magnitudeSq =
      b.velocity.magnitudeSq := by
  have hunfold : checkWallCollisionEdge v1 v2 d b =
      { b with
        position :=
          b.position.add ((wallNormal v1 v2 b.position d).multiply (b.radius - d))
        velocity :=
          b.velocity.subtract ((wallNormal v1 v2 b.position d).multiply
            (2 * (b.velocity.dot (wallNormal v1 v2 b.position d))))
        particlesEmitted := b.particlesEmitted + 5 } := by
    rw [checkWallCollisionEdge]
    rw [if_pos hcol]
    rfl
  refine ⟨by rw [hunfold], by rw [hunfold], ?_⟩
  rw [hunfold]
  exact reflect_normalizeWith_magSq b.velocity _ d hd

/-- C3 witness: the bot at (1,1) with radius 25 against the edge from
(0,0) to (4,0); the closest point is (1,0), distance 1, and the
reflected velocity keeps its squared magnitude. -/
theorem wallCollision_spec_witness :
    (checkWallCollisionEdge ⟨0, 0⟩ ⟨4, 0⟩ 1 wallBotEx).velocity.magnitudeSq =
      wallBotEx.velocity.magnitudeSq :=
  (wallCollision_spec ⟨0, 0⟩ ⟨4, 0⟩ 1 wallBotEx
    (by norm_num [Vector2.subtract, Vector2.dot])
    (by decide)
    (by norm_num [wallBotEx, botEx, wallClosestPoint, Vector2.subtract,
      Vector2.dot, Vector2.add, Vector2.multiply, Vector2.magnitudeSq,
      min_def, max_def])
    (by norm_num [wallBotEx, botEx])).2.2

/-- C4 counterexample: with the two bot centres coincident (distance
0, which satisfies the only gate the claim requires, 0 < radius sum),
the computed normal is the zero vector and the first bot of speed 5 is
left with zero velocity: its speed is not preserved, refuting the
unrestricted claim. -/
theorem botCollision_cex :
    (0 : ℚ) * 0 = (cexBot2.position.subtract cexBot1.position).magnitudeSq ∧
    (0 : ℚ) < cexBot1.radius + cexBot2.radius ∧
    (5 : ℚ) * 5 = cexBot1.velocity.magnitudeSq ∧
    (0 : ℚ) * 0 = cexBot2.velocity.magnitudeSq ∧
    (resolveBotCollision 0 5 0 cexBot1 cexBot2).1.velocity.magnitudeSq ≠
      cexBot1.velocity.magnitudeSq := by
  norm_num [cexBot1, cexBot2, botEx, resolveBotCollision, normalizeWith,
    Vector2.subtract, Vector2.multiply, Vector2.magnitudeSq]

/-- C4 (amended): bot-bot collision resolution.  Whenever the centre
distance d (pinned, with the speeds s1 and s2 pinned likewise) is
strictly less than the sum of the radii and the centres are distinct
(0 < d, the amendment: with coincident centres the normal degenerates
to the zero vector and both velocities are zeroed), bot1 is moved
backward and bot2 forward by the same penetration vector
normal * (r1 + r2 - d), the velocities are reassigned to
normal * (-s1) and normal * (+s2) along the unit centre-to-centre
normal, and each squared speed is preserved. -/
theorem botCollision_spec (d s1 s2 : ℚ) (b1 b2 : Bot)
    (hd0 : 0 < d)
    (hd : d * d = (b2.position.subtract b1.position).magnitudeSq)
    (hlt : d < b1.radius + b2.radius)
    (hs1 : 0 ≤ s1) (hs1m : s1 * s1 = b1.velocity.magnitudeSq)
    (hs2 : 0 ≤ s2) (hs2m : s2 * s2 = b2.velocity.magnitudeSq) :
    (resolveBotCollision d s1 s2 b1 b2).1.position =
      b1.position.subtract
        ((normalizeWith (b2.position.subtract b1.position) d).multiply
          (b1.radius + b2.radius - d)) ∧
    (resolveBotCollision d s1 s2 b1 b2).2.position =
      b2.position.add
        ((normalizeWith (b2.position.subtract b1.position) d).multiply
          (b1.radius + b2.radius - d)) ∧
    (resolveBotCollision d s1 s2 b1 b2).1.velocity =
      (normalizeWith (b2.position.subtract b1.position) d).multiply (-s1) ∧
    (resolveBotCollision d s1 s2 b1 b2).2.velocity =
      (normalizeWith (b2.position.subtract b1.position) d).multiply s2 ∧
    (resolveBotCollision d s1 s2 b1 b2).1.velocity.magnitudeSq =
      b1.velocity.magnitudeSq ∧
    (resolveBotCollision d s1 s2 b1 b2).2.velocity.magnitudeSq =
      b2.velocity.magnitudeSq := by
  have hne : d ≠ 0 := ne_of_gt hd0
  have hn : (normalizeWith (b2.position.subtract b1.position) d).dot
      (normalizeWith (b2.position.subtract b1.position) d) = 1 :=
    normalizeWith_dot_self _ d hne hd
  have hunfold : resolveBotCollision d s1 s2 b1 b2 =
      ({ b1 with
          position := b1.position.subtract
            ((normalizeWith (b2.position.subtract b1.position) d).multiply
              (b1.radius + b2.radius - d))
          velocity :=
            (normalizeWith (b2.position.subtract b1.position) d).multiply (-s1)
          squashScale := 4/5 },
       { b2 with
          position := b2.position.add
            ((normalizeWith (b2.position.subtract b1.position) d).multiply
              (b1.radius + b2.radius - d))
          velocity :=
            (normalizeWith (b2.position.subtract b1.position) d).multiply s2
          squashScale := 4/5 }) := by
    rw [resolveBotCollision]
    rw [if_pos hlt]
  have hdot : (normalizeWith (b2.position.subtract b1.position) d).magnitudeSq
      = 1 := hn
  refine ⟨by rw [hunfold], by rw [hunfold], by rw [hunfold], by rw [hunfold],
    ?_, ?_⟩
  · rw [hunfold]
    show ((normalizeWith (b2.position.subtract b1.position) d).multiply
      (-s1)).magnitudeSq = b1.velocity.magnitudeSq
    rw [magSq_multiply, hdot, ← hs1m]
    ring
  · rw [hunfold]
    show ((normalizeWith (b2.position.subtract b1.position) d).multiply
      s2).magnitudeSq = b2.velocity.magnitudeSq
    rw [magSq_multiply, hdot, ← hs2m]
    ring

/-- C4 witness: bots 30 apart with radii 25 and speeds 5 and 0; the
first bot keeps its squared speed through the collision. -/
theorem botCollision_spec_witness :
    (resolveBotCollision 30 5 0 colBot1 colBot2).1.velocity.magnitudeSq =
      colBot1.velocity.magnitudeSq :=
  (botCollision_spec 30 5 0 colBot1 colBot2
    (by decide)
    (by norm_num [colBot1, colBot2, botEx, Vector2.subtract, Vector2.magnitudeSq])
    (by norm_num [colBot1, colBot2, botEx])
    (by decide)
    (by norm_num [colBot1, botEx, Vector2.magnitudeSq])
    (by decide)
    (by norm_num [colBot2, botEx, Vector2.magnitudeSq])).2.2.2.2.1

/-- C10: bot-bot separation post-condition.  Whenever the bots overlap
with distinct centres (0 < d < r1 + r2, d pinned as the centre
distance), after both bots move by the full penetration vector the new
squared centre distance equals (2 (r1 + r2) - d)^2, which strictly
exceeds (r1 + r2)^2: the bots never remain overlapping after a
resolved collision with distinct centres. -/
theorem botSeparation_spec (d s1 s2 : ℚ) (b1 b2 : Bot)
    (hd0 : 0 < d) (hlt : d < b1.radius + b2.radius)
    (hd : d * d = (b2.position.subtract b1.position).magnitudeSq) :
    ((resolveBotCollision d s1 s2 b1 b2).2.position.subtract
      (resolveBotCollision d s1 s2 b1 b2).1.position).magnitudeSq =
      (2 * (b1.radius + b2.radius) - d) * (2 * (b1.radius + b2.radius) - d) ∧
    (b1.radius + b2.radius) * (b1.radius + b2.radius) <
      ((resolveBotCollision d s1 s2 b1 b2).2.position.subtract
        (resolveBotCollision d s1 s2 b1 b2).1.position).magnitudeSq := by
  have hne : d ≠ 0 := ne_of_gt hd0
  have hdiff : (resolveBotCollision d s1 s2 b1 b2).2.position.subtract
      (resolveBotCollision d s1 s2 b1 b2).1.position =
      (b2.position.subtract b1.position).multiply
        ((2 * (b1.radius + b2.radius) - d) / d) := by
    rw [resolveBotCollision]
    rw [if_pos hlt]
    rw [normalizeWith, if_neg hne]
    simp only [Vector2.subtract, Vector2.add, Vector2.multiply, Vector2.mk.injEq]
    constructor
    · field_simp
      ring
    · field_simp
      ring
  have hmain : ((resolveBotCollision d s1 s2 b1 b2).2.position.subtract
      (resolveBotCollision d s1 s2 b1 b2).1.position).magnitudeSq =
      (2 * (b1.radius + b2.radius) - d) * (2 * (b1.radius + b2.radius) - d) := by
    rw [hdiff, magSq_multiply, ← hd]
    field_simp
  refine ⟨hmain, ?_⟩
  rw [hmain]
  nlinarith [mul_pos
    (show (0:ℚ) < 3 * (b1.radius + b2.radius) - d by linarith)
    (show (0:ℚ) < (b1.radius + b2.radius) - d by linarith)]

/-- C10 witness: bots 30 apart with radii 25 end up at squared
distance (2 * 50 - 30)^2 = 4900 > 2500 after resolution. -/
theorem botSeparation_spec_witness :
    ((resolveBotCollision 30 5 0 colBot1 colBot2).2.position.subtract
      (resolveBotCollision 30 5 0 colBot1 colBot2).1.position).magnitudeSq =
      (2 * (colBot1.radius + colBot2.radius) - 30) *
        (2 * (colBot1.radius + colBot2.radius) - 30) :=
  (botSeparation_spec 30 5 0 colBot1 colBot2
    (by decide)
    (by norm_num [colBot1, colBot2, botEx])
    (by norm_num [colBot1, colBot2, botEx, Vector2.subtract,
      Vector2.magnitudeSq])).1

/-! ### JNum computation lemmas -/

/-- Lifted operations on two finite operands compute. -/
theorem jsub_some_some (a b : ℚ) : jsub (some a) (some b) = some (a - b) := rfl

/-- Lifted addition on finite operands. -/
theorem jadd_some_some (a b : ℚ) : jadd (some a) (some b) = some (a + b) := rfl

/-- Lifted multiplication on finite operands. -/
theorem jmul_some_some (a b : ℚ) : jmul (some a) (some b) = some (a * b) := rfl

/-- NaN absorbs subtraction on the right. -/
theorem jsub_none_right (x : JNum) : jsub x none = none := by cases x <;> rfl

/-- NaN absorbs subtraction on the left. -/
theorem jsub_none_left (x : JNum) : jsub none x = none := by cases x <;> rfl

/-- NaN absorbs addition on the right. -/
theorem jadd_none_right (x : JNum) : jadd x none = none := by cases x <;> rfl

/-- NaN absorbs addition on the left. -/
theorem jadd_none_left (x : JNum) : jadd none x = none := by cases x <;> rfl

/-- NaN absorbs multiplication on the right. -/
theorem jmul_none_right (x : JNum) : jmul x none = none := by cases x <;> rfl

/-- NaN absorbs multiplication on the left. -/
theorem jmul_none_left (x : JNum) : jmul none x = none := by cases x <;> rfl

/-- Division by a NaN denominator is NaN. -/
theorem jdiv_none_right (x : JNum) : jdiv x none = none := by cases x <;> rfl

/-- Division with a zero denominator is NaN (0/0 is the only case the
wall code can reach). -/
theorem jdiv_some_zero (x : JNum) : jdiv x (some 0) = none := by
  cases x
  · rfl
  · simp [jdiv]

/-- Math.min with NaN is NaN. -/
theorem jmin_none_right (x : JNum) : jmin x none = none := by cases x <;> rfl

/-- Math.max with NaN is NaN. -/
theorem jmax_none_right (x : JNum) : jmax x none = none := by cases x <;> rfl

/-- Comparison with NaN on the left is false. -/
theorem jlt_none_left (x : JNum) : jlt none x = false := by cases x <;> rfl

/-- C8: degenerate wall segment safety.  For every bot state, every
pinned distance and every pair of coincident edge endpoints, the wall
collision check leaves the bot completely unchanged, so the division
by the zero dot product never propagates NaN or any other value into
the position or velocity: the projection evaluates to NaN, every
derived quantity including the distance is NaN, the comparison
distance < radius is false, and the edge is skipped.  (The source has
no explicit guard; the non-propagation is forced by JS NaN comparison
semantics, which this model tracks.) -/
theorem degenerateWallSegment_spec (v : JVec) (d : JNum) (b : JBot) :
    checkWallCollisionEdgeJS v v d b = b := by
  obtain ⟨vx, vy⟩ := v
  cases vx <;> cases vy <;>
    simp [checkWallCollisionEdgeJS, jsubV, jaddV, jmulV, jdotV,
      jsub_some_some, jadd_some_some, jmul_some_some, sub_self, mul_zero,
      add_zero, jdiv_some_zero, jdiv_none_right, jmin_none_right,
      jmax_none_right, jmul_none_right, jmul_none_left, jadd_none_right,
      jadd_none_left, jsub_none_right, jsub_none_left, jlt_none_left]

/-- C8 witness: a concrete finite bot against the degenerate edge with
both endpoints at (1,2) is untouched. -/
theorem degenerateWallSegment_spec_witness :
    checkWallCollisionEdgeJS ⟨some 1, some 2⟩ ⟨some 1, some 2⟩ (some 3)
      ⟨⟨some 0, some 0⟩, ⟨some 1, some 1⟩, some 25⟩ =
      ⟨⟨some 0, some 0⟩, ⟨some 1, some 1⟩, some 25⟩ :=
  degenerateWallSegment_spec ⟨some 1, some 2⟩ (some 3)
    ⟨⟨some 0, some 0⟩, ⟨some 1, some 1⟩, some 25⟩

end BotArena
